import Mathlib

/-!
Verification of the ezsp-spi-bridge ASH/SPI core against its specification.

Bytes are modelled as `Nat` values below 256; all arithmetic that can wrap in
the Rust source carries an explicit modulus.  Loops that the source writes
with `loop`/`while` are modelled with an explicit fuel parameter, `none`
standing for a computation that has not terminated within the given fuel.
-/

set_option maxRecDepth 100000

namespace EzspSpiBridge

abbrev Byte := Nat

/-! ### src/ash/constants.rs -/

def FLAG_BYTE : Byte := 0x7E
def SUB_BYTE : Byte := 0x18
def CANCEL_BYTE : Byte := 0x1A
def ESCAPE_BYTE : Byte := 0x7D

def RESERVED_BYTES : List Byte := [FLAG_BYTE, ESCAPE_BYTE, 0x11, 0x13, SUB_BYTE, CANCEL_BYTE]

def RESET_POWERON : Byte := 0x02
def ASH_VERSION_2 : Byte := 0x02

/-! ### src/ash/types.rs -/

/-- `three_bit_wrapped_add` from types.rs: `(lhs + rhs) % 8`. -/
def three_bit_wrapped_add (lhs rhs : Nat) : Nat := (lhs + rhs) % 8

/-- `FrameNumber(u8)`: a 3-bit sequence number. -/
structure FrameNumber where
  val : Nat
deriving DecidableEq, Repr

/-- `FrameNumber::new`: rejects values above 7. -/
def FrameNumber.new (value : Nat) : Option FrameNumber :=
  if value > 7 then none else some ⟨value⟩

/-- `FrameNumber::new_truncate`: keeps the low three bits (`value & 0x07`). -/
def FrameNumber.new_truncate (value : Nat) : FrameNumber := ⟨value &&& 0x07⟩

/-- `impl Add<u8> for FrameNumber` via `three_bit_wrapped_add`. -/
def FrameNumber.add (f : FrameNumber) (rhs : Nat) : FrameNumber :=
  ⟨three_bit_wrapped_add f.val rhs⟩

/-! ### src/ash/frame/mod.rs: the `Frame` enum -/

inductive Frame where
  | data (frm_num : FrameNumber) (re_tx : Bool) (ack_num : FrameNumber) (body : List Byte)
  | ack (res n_rdy : Bool) (ack_num : FrameNumber)
  | nak (res n_rdy : Bool) (ack_num : FrameNumber)
  | rst
  | rstAck (version code : Byte)
  | error (version code : Byte)
deriving DecidableEq, Repr

/-- `ash::Error` (src/ash/error.rs); the `Io` and `Channel` variants carry host
resources and cannot arise in the pure decoding model. -/
inductive AshError where
  | unknownFrame
  | invalidChecksum (frame : Frame)
  | invalidDataField (frame : Frame)
deriving DecidableEq, Repr

/-! ### src/ash/checksum.rs

CRC-16/XMODEM (poly 0x1021, no reflection, no final xor) seeded with 0xFFFF,
computed bitwise; the `crc` crate's table-driven digest is equivalent. -/

def crcShiftBit (crc : Nat) : Nat :=
  if crc &&& 0x8000 ≠ 0 then ((crc <<< 1) ^^^ 0x1021) % 65536
  else (crc <<< 1) % 65536

def crcShiftBits : Nat → Nat → Nat
  | 0, crc => crc
  | n + 1, crc => crcShiftBits n (crcShiftBit crc)

def crcUpdateByte (crc b : Nat) : Nat :=
  crcShiftBits 8 (crc ^^^ ((b <<< 8) % 65536))

def frame_checksum (frame : List Byte) : Nat :=
  frame.foldl crcUpdateByte 0xFFFF

theorem frame_checksum_rst : frame_checksum [0xC0] = 0x38BC := by decide

theorem frame_checksum_rstack : frame_checksum [0xC1, 0x02, 0x02] = 0x9B7B := by decide

theorem frame_checksum_data :
    frame_checksum [0x25, 0x42, 0x21, 0xA8, 0x56] = 0xA609 := by decide

/-! ### src/ash/frame/parsers.rs -/

/-- Result of `frame_data_and_flag`: either the unstuffed bytes up to (and
consuming) the first unescaped FLAG together with the remaining input, or a
request for more bytes. -/
inductive UnstuffResult where
  | incomplete
  | ok (rest : List Byte) (collected : List Byte)
deriving DecidableEq, Repr

/-- `frame_data_and_flag`: collect bytes until an unescaped FLAG, XORing the
byte after each ESCAPE with 0x20 (the escaped byte is consumed verbatim even
if it is itself FLAG or ESCAPE, exactly as the source loop does). -/
def frame_data_and_flag : List Byte → UnstuffResult
  | [] => .incomplete
  | b :: rest =>
    if b = FLAG_BYTE then .ok rest []
    else if b = ESCAPE_BYTE then
      match rest with
      | [] => .incomplete
      | c :: rest2 =>
        match frame_data_and_flag rest2 with
        | .ok r coll => .ok r ((c ^^^ 0x20) :: coll)
        | .incomplete => .incomplete
    else
      match frame_data_and_flag rest with
      | .ok r coll => .ok r (b :: coll)
      | .incomplete => .incomplete

theorem frame_data_and_flag_unescapes :
    frame_data_and_flag
      [0x7D, 0x5E, 0x7D, 0x5D, 0x7D, 0x31, 0x7D, 0x33, 0x7D, 0x38, 0x7D, 0x3A, 0x7E] =
      .ok [] [0x7E, 0x7D, 0x11, 0x13, 0x18, 0x1A] := by decide

/-- The control-byte alternation of `Frame::parse`: `data_control_byte`,
`ack_control_byte`, `nak_control_byte`, `rst_control_byte`,
`rst_ack_control_byte`, `error_control_byte`, in source order.  The bit fields
follow the nom bit parsers (MSB first); the 3-bit takes always satisfy
`FrameNumber::new`. -/
def parseControlByte (b : Byte) : Option Frame :=
  if b < 0x80 then
    some (.data ⟨(b >>> 4) &&& 0x07⟩ ((b &&& 0x08) != 0) ⟨b &&& 0x07⟩ [])
  else if b < 0xA0 then
    some (.ack ((b &&& 0x10) != 0) ((b &&& 0x08) != 0) ⟨b &&& 0x07⟩)
  else if b < 0xC0 then
    some (.nak ((b &&& 0x10) != 0) ((b &&& 0x08) != 0) ⟨b &&& 0x07⟩)
  else if b = 0xC0 then some .rst
  else if b = 0xC1 then some (.rstAck 0 0)
  else if b = 0xC2 then some (.error 0 0)
  else none

/-- `Frame::data_len`: `Needed::Unknown` for DATA (`none`), four bytes for
RSTACK/ERROR (2-byte payload plus CRC), two bytes (CRC only) otherwise. -/
def Frame.data_len : Frame → Option Nat
  | .data _ _ _ _ => none
  | .rstAck _ _ => some 4
  | .error _ _ => some 4
  | _ => some 2

/-- The tail of `Frame::parse`: move the parsed data into the frame.  DATA
receives the raw unstuffed bytes verbatim; RSTACK/ERROR read version and code
with `get_u8`. -/
def finishFill (frame : Frame) (data : List Byte) : Frame :=
  match frame with
  | .data f r a _ => .data f r a data
  | .rstAck _ _ => .rstAck (data.headD 0) ((data.drop 1).headD 0)
  | .error _ _ => .error (data.headD 0) ((data.drop 1).headD 0)
  | f => f

inductive ParseOutcome where
  | incomplete
  | failure (rest : List Byte) (err : AshError)
  | ok (rest : List Byte) (frame : Frame)
deriving DecidableEq, Repr

/-- CRC comparison and body fill shared by both branches of `Frame::parse`:
the digester was updated with the control byte and the data bytes, and the
trailing two bytes are read big-endian with `get_u16`. -/
def checkAndFill (ctrl : Byte) (rest : List Byte) (frame : Frame)
    (data cs : List Byte) : ParseOutcome :=
  if frame_checksum (ctrl :: data) ≠ cs.headD 0 * 256 + (cs.drop 1).headD 0 then
    .failure rest (.invalidChecksum frame)
  else .ok rest (finishFill frame data)

/-- `Frame::parse` (src/ash/frame/mod.rs lines 116-184). -/
def Frame.parse (input : List Byte) : ParseOutcome :=
  match input with
  | [] => .incomplete
  | b :: i2 =>
    match parseControlByte b with
    | none =>
      match frame_data_and_flag input with
      | .incomplete => .incomplete
      | .ok rest _ => .failure rest .unknownFrame
    | some frame =>
      match frame_data_and_flag i2 with
      | .incomplete => .incomplete
      | .ok rest dataAndChecksum =>
        match frame.data_len with
        | some size =>
          if dataAndChecksum.length ≠ size then
            .failure rest (.invalidDataField frame)
          else
            checkAndFill b rest frame
              (dataAndChecksum.take (size - 2)) (dataAndChecksum.drop (size - 2))
        | none =>
          if dataAndChecksum.length < 2 then
            .failure rest (.invalidDataField frame)
          else
            checkAndFill b rest frame
              (dataAndChecksum.take (dataAndChecksum.length - 2))
              (dataAndChecksum.drop (dataAndChecksum.length - 2))

theorem frame_parse_rst :
    Frame.parse [0xC0, 0x38, 0xBC, 0x7E] = .ok [] .rst := by decide

theorem frame_parse_rstack :
    Frame.parse [0xC1, 0x02, 0x02, 0x9B, 0x7B, 0x7E] = .ok [] (.rstAck 0x02 0x02) := by
  decide

/-! ### src/ash/randomizer.rs and the `rand_seq` LFSR (frame/mod.rs, frame/data.rs) -/

/-- One step of the 8-bit LFSR: `(b >> 1) ^ ((b & 0x01) * 0xB8)`. -/
def lfsr_next (reg : Byte) : Byte := (reg >>> 1) ^^^ ((reg &&& 0x01) * 0xB8)

/-- `rand_seq()` (frame/mod.rs lines 263-265): the LFSR stream seeded at 0x42,
as a function of the position. -/
def rand_seq : Nat → Byte
  | 0 => 0x42
  | n + 1 => lfsr_next (rand_seq n)

/-- The loop of `randomize_data` (randomizer.rs) starting from register `reg`:
XOR each byte with the current register, stepping the LFSR. -/
def randomize_data_from (reg : Byte) : List Byte → List Byte
  | [] => []
  | b :: rest => (b ^^^ reg) :: randomize_data_from (lfsr_next reg) rest

/-- `randomize_data` (src/ash/randomizer.rs lines 1-7), register seeded 0x42. -/
def randomize_data (buf : List Byte) : List Byte := randomize_data_from 0x42 buf

/-- `xor_with_rand_seq` (frame/data.rs lines 24-28): zip the buffer with
`rand_seq()` and XOR pointwise — the same recursion as `randomize_data`. -/
def xor_with_rand_seq (buf : List Byte) : List Byte := randomize_data_from 0x42 buf

theorem randomize_data_test_vector :
    randomize_data [0, 0, 0, 0, 0] = [0x42, 0x21, 0xA8, 0x54, 0x2A] := by decide

/-! ### src/ash/frame/data.rs: `DataFrame::parse` (the rewrite that
de-randomises the body) -/

structure DataFrame where
  frm_num : FrameNumber
  re_tx : Bool
  ack_num : FrameNumber
  data : List Byte
deriving DecidableEq, Repr

inductive DataParseOutcome where
  | incomplete
  | failure
  | ok (rest : List Byte) (frame : DataFrame)
deriving DecidableEq, Repr

/-- `DataFrame::parse` (src/ash/frame/data.rs lines 97-125): parse the control
byte, unstuff up to the FLAG, verify the CRC, then `xor_with_rand_seq` the
body before constructing the frame. -/
def DataFrame.parse (input : List Byte) : DataParseOutcome :=
  match input with
  | [] => .incomplete
  | b :: i2 =>
    if b ≥ 0x80 then .failure
    else
      match frame_data_and_flag i2 with
      | .incomplete => .incomplete
      | .ok rest dataAndChecksum =>
        if dataAndChecksum.length < 2 then .failure
        else
          let data := dataAndChecksum.take (dataAndChecksum.length - 2)
          let cs := dataAndChecksum.drop (dataAndChecksum.length - 2)
          if frame_checksum (b :: data) ≠ cs.headD 0 * 256 + (cs.drop 1).headD 0 then
            .failure
          else
            .ok rest
              ⟨FrameNumber.new_truncate ((b >>> 4) &&& 0x07), (b &&& 0x08) != 0,
               FrameNumber.new_truncate (b &&& 0x07), xor_with_rand_seq data⟩

/-! ### src/ash/frame/mod.rs: serialization -/

/-- `Frame::flag`: the control byte of each variant. -/
def Frame.flag : Frame → Byte
  | .data f r a _ => (f.val <<< 4) ||| ((if r then 1 else 0) <<< 3) ||| a.val
  | .ack res n_rdy a =>
    0x80 ||| ((if res then 1 else 0) <<< 4) ||| ((if n_rdy then 1 else 0) <<< 3) ||| a.val
  | .nak res n_rdy a =>
    0xA0 ||| ((if res then 1 else 0) <<< 4) ||| ((if n_rdy then 1 else 0) <<< 3) ||| a.val
  | .rst => 0xC0
  | .rstAck _ _ => 0xC1
  | .error _ _ => 0xC2

/-- The DATA branch of `Frame::serialize_data`: XOR each body byte with the
LFSR stream and, when the result is a reserved byte, emit ESCAPE and the byte
XOR 0x20. -/
def serializeDataBody (reg : Byte) : List Byte → List Byte
  | [] => []
  | b :: rest =>
    let res := b ^^^ reg
    (if res ∈ RESERVED_BYTES then [ESCAPE_BYTE, res ^^^ 0x20] else [res]) ++
      serializeDataBody (lfsr_next reg) rest

/-- `Frame::serialize_data` (frame/mod.rs lines 234-260): randomised stuffed
body for DATA, raw version and code bytes for RSTACK/ERROR, nothing
otherwise. -/
def Frame.serialize_data : Frame → List Byte
  | .data _ _ _ body => serializeDataBody 0x42 body
  | .rstAck v c => [v, c]
  | .error v c => [v, c]
  | _ => []

/-- The checksum-byte treatment in `Frame::serialize`: a reserved byte is
XORed with 0x20 in place — no ESCAPE byte is emitted before it. -/
def csStuff (byte : Byte) : Byte :=
  if byte ∈ RESERVED_BYTES then byte ^^^ 0x20 else byte

/-- `Frame::serialize` (frame/mod.rs lines 186-199): control byte, payload as
produced by `serialize_data`, CRC computed over the bytes written so far
(control plus the already-stuffed payload) appended big-endian with `csStuff`
applied to each checksum byte, then the FLAG terminator. -/
def Frame.serialize (f : Frame) : List Byte :=
  let buf := f.flag :: f.serialize_data
  let checksum := frame_checksum buf
  buf ++ [csStuff (checksum >>> 8), csStuff (checksum &&& 0xFF)] ++ [FLAG_BYTE]

/-! ### src/ash/codec.rs: `AshCodec`

The codec state is the pair of the receive buffer and the `dropping` flag.
`drop_buffer_before_substitute` is a `loop` whose only exit is the `break` on
a FLAG byte, so it is modelled with fuel: `none` means the loop has not
terminated within the given number of iterations. -/

/-- Whether a byte triggers the recovery scan of
`drop_buffer_before_substitute` (SUBSTITUTE, CANCEL or FLAG). -/
def isFramingByte (b : Byte) : Bool :=
  b == SUB_BYTE || b == CANCEL_BYTE || b == FLAG_BYTE

/-- `buf.iter().position(..)` followed by `buf.advance(idx + 1)`: the first
SUBSTITUTE/CANCEL/FLAG byte together with the buffer contents after it. -/
def firstFraming : List Byte → Option (Byte × List Byte)
  | [] => none
  | b :: rest => if isFramingByte b then some (b, rest) else firstFraming rest

/-- The `loop` of `drop_buffer_before_substitute` (codec.rs lines 39-57).
When a FLAG is the first framing byte the loop breaks with the buffer intact;
when CANCEL or SUBSTITUTE is found the buffer is advanced past it and
`dropping` is set to whether it was SUBSTITUTE; when no framing byte exists
the loop body changes nothing and the loop runs again. -/
def dropScanLoop : Nat → List Byte → Bool → Option (List Byte × Bool)
  | 0, _, _ => none
  | fuel + 1, buf, dropping =>
    match firstFraming buf with
    | some (b, suffix) =>
      if b = FLAG_BYTE then some (buf, dropping)
      else dropScanLoop fuel suffix (b == SUB_BYTE)
    | none => dropScanLoop fuel buf dropping

/-- `drop_buffer_til_flag` (codec.rs lines 60-70): drop up to and including
the next FLAG and clear `dropping`; if no FLAG exists, `buf.split()` empties
the buffer and `dropping` is left unchanged. -/
def drop_buffer_til_flag : List Byte → Bool → List Byte × Bool
  | [], dropping => ([], dropping)
  | b :: rest, dropping =>
    if b = FLAG_BYTE then (rest, false) else drop_buffer_til_flag rest dropping

/-- The `while self.dropping && buf.len() > 0` loop of
`drop_buffer_framing_errors` (codec.rs lines 29-33), with fuel shared with the
inner scan. -/
def framingErrLoop : Nat → List Byte → Bool → Option (List Byte × Bool)
  | 0, _, _ => none
  | fuel + 1, buf, dropping =>
    if dropping ∧ buf ≠ [] then
      let p := drop_buffer_til_flag buf dropping;
      match dropScanLoop fuel p.1 p.2 with
      | none => none
      | some (b2, d2) => framingErrLoop fuel b2 d2
    else some (buf, dropping)

/-- `drop_buffer_framing_errors` (codec.rs lines 23-34). -/
def drop_buffer_framing_errors (fuel : Nat) (buf : List Byte) (dropping : Bool) :
    Option (List Byte × Bool) :=
  if dropping then framingErrLoop fuel buf dropping
  else
    match dropScanLoop fuel buf dropping with
    | none => none
    | some (b1, d1) => framingErrLoop fuel b1 d1

/-- The value decoded by one `AshCodec::decode` call: `Ok(None)` asking for
more bytes, a hard error (`Err(e)` from the outer result), or a frame. -/
inductive DecodeResult where
  | needMore
  | hardErr (e : AshError)
  | frame (f : Frame)
deriving DecidableEq, Repr

/-- `AshCodec::decode` (codec.rs lines 87-113): run the framing-error
recovery scan, then `Frame::parse`; on success or failure the buffer is
advanced to the parser's remaining input.  `none` models a call that never
returns because the recovery scan loops forever. -/
def AshCodec.decode (fuel : Nat) (buf : List Byte) (dropping : Bool) :
    Option (DecodeResult × List Byte × Bool) :=
  match drop_buffer_framing_errors fuel buf dropping with
  | none => none
  | some (buf1, d1) =>
    match Frame.parse buf1 with
    | .incomplete => some (.needMore, buf1, d1)
    | .failure rest e => some (.hardErr e, rest, d1)
    | .ok rest f => some (.frame f, rest, d1)

/-! ### src/ash/protocol/state.rs: the link state machine

The async effects are made explicit: each operation returns the frames sent
through the sink and the payloads sent to the outbox, in order. -/

structure ConnectedState where
  reject : Bool
  inflight_frame_number : FrameNumber
  acked_frame_number : FrameNumber
deriving DecidableEq, Repr

/-- `ConnectedState::default()`: all fields zero/false. -/
def ConnectedState.initial : ConnectedState := ⟨false, ⟨0⟩, ⟨0⟩⟩

inductive LinkState where
  | failed (reason : Byte)
  | connected (s : ConnectedState)
deriving DecidableEq, Repr

/-- `ConnectedState::set_reject_condition_and_send_nak` (state.rs lines
165-175): when the reject condition is not yet set, set it and send a single
`Nak(n_rdy=false, ack_num=frm_num)`; otherwise do nothing. -/
def ConnectedState.set_reject_condition_and_send_nak
    (s : ConnectedState) (frm_num : FrameNumber) : ConnectedState × List Frame :=
  if ¬ s.reject then ({ s with reject := true }, [Frame.nak false false frm_num])
  else (s, [])

/-- `ConnectedState::clear_reject_condition` (state.rs lines 177-179).  This
helper has no caller anywhere in the source. -/
def ConnectedState.clear_reject_condition (s : ConnectedState) : ConnectedState :=
  { s with reject := false }

/-- `ConnectedState::process_data_frame` (state.rs lines 118-163): returns
the successor state, the frames sent, and the bodies enqueued to the outbox.
The window test uses `u8::abs_diff` (`Nat.dist`).  Note that the in-sequence
path increments the in-flight number and forwards the body but never touches
the reject flag. -/
def ConnectedState.process_data_frame (s : ConnectedState) (frm_num : FrameNumber)
    (_re_tx : Bool) (_ack_num : FrameNumber) (body : List Byte) :
    ConnectedState × List Frame × List (List Byte) :=
  if frm_num ≠ s.inflight_frame_number.add 1 then
    let p := s.set_reject_condition_and_send_nak frm_num
    (p.1, p.2, [])
  else if Nat.dist s.inflight_frame_number.val s.acked_frame_number.val > 7 then
    let p := s.set_reject_condition_and_send_nak frm_num
    (p.1, p.2, [])
  else
    ({ s with inflight_frame_number := s.inflight_frame_number.add 1 }, [], [body])

/-- Outcome of `ConnectedState::handle_frame`: either the new state with its
effects, or the `bail!` on a frame type that is not yet implemented. -/
inductive HandleOutcome where
  | ok (s : ConnectedState) (sent : List Frame) (enqueued : List (List Byte))
  | taskError
deriving DecidableEq, Repr

/-- `ConnectedState::handle_frame` (state.rs lines 90-116): DATA frames go to
`process_data_frame`; `InvalidChecksum`/`InvalidDataField` errors carrying a
DATA candidate set the reject condition and NAK its frame number; other
decode errors are logged and ignored; any other frame type bails. -/
def ConnectedState.handle_frame (s : ConnectedState) (res : Except AshError Frame) :
    HandleOutcome :=
  match res with
  | .ok (.data frm_num re_tx ack_num body) =>
    let t := s.process_data_frame frm_num re_tx ack_num body
    .ok t.1 t.2.1 t.2.2
  | .error (.invalidChecksum (.data frm_num _ _ _)) =>
    let p := s.set_reject_condition_and_send_nak frm_num
    .ok p.1 p.2 []
  | .error (.invalidDataField (.data frm_num _ _ _)) =>
    let p := s.set_reject_condition_and_send_nak frm_num
    .ok p.1 p.2 []
  | .error _ => .ok s [] []
  | .ok _ => .taskError

/-! ### src/ash/protocol/handles.rs: the frame stream

A stream item is `Result<Result<Frame, Error>, Error>`: the outer error is a
transport failure, the inner one a decode error.  The single-slot `peeked`
cell together with the pure stream is modelled by operating directly on the
list of pending items. -/

abbrev StreamItem := Except AshError (Except AshError Frame)

deriving instance DecidableEq for Except

/-- The predicate of the discard loop: `matches!(res, Err(_) | Ok(Frame::Rst))`
under a `Some(Ok(res))` peek. -/
def isDiscardableItem : StreamItem → Bool
  | .ok (.error _) => true
  | .ok (.ok .rst) => true
  | _ => false

/-- `AshStreamTaskHandles::discard_extra_rst_frames` (handles.rs lines
71-80): repeatedly peek and consume while the next item is a decode error or
an RST frame; stop at the first other item, a transport error, or the end of
the stream. -/
def discard_extra_rst_frames : List StreamItem → List StreamItem
  | [] => []
  | item :: rest =>
    if isDiscardableItem item then discard_extra_rst_frames rest else item :: rest

/-- Outcome of one `FailedState::process` step: the task fails (disconnect or
transport error propagated by `?`), or it yields an optional next state, the
frames sent, and the rest of the stream. -/
inductive FailedProcessOutcome where
  | taskError
  | step (next : Option LinkState) (sent : List Frame) (rest : List StreamItem)
deriving DecidableEq, Repr

/-- `FailedState::process` (state.rs lines 39-62).  `reason` is the stored
failure reason, `resetCode` the code obtained from `reset_ncp()` on the
NcpActor.  A non-RST item (frame or decode error) is answered with
`Error(version=2, code=reason)` and the state is kept; an RST triggers the
reset, a `RstAck(version=2, code)`, the discard of immediately-following RST
frames and decode errors, and the transition to the initial Connected
state. -/
def FailedState.process (reason resetCode : Byte) (stream : List StreamItem) :
    FailedProcessOutcome :=
  match stream with
  | [] => .taskError
  | .error _ :: _ => .taskError
  | .ok frameRes :: rest =>
    match frameRes with
    | .ok .rst =>
      .step (some (.connected ConnectedState.initial))
        [Frame.rstAck ASH_VERSION_2 resetCode]
        (discard_extra_rst_frames rest)
    | _ => .step none [Frame.error ASH_VERSION_2 reason] rest

/-! ### src/spi/ncp.rs: the NCP actor core

GPIO and timing calls do not affect the values the claims are about and are
dropped; `read_response` (whose own indexing is analysed separately below) is
abstracted to a response oracle per command, and the interrupt polls to
boolean oracles. -/

inductive NcpState where
  | normal
  | bootloader
  | unknown
deriving DecidableEq, Repr

/-- `spi::Error` as used by ncp.rs (the `Io` variant carries a host error and
cannot arise in the pure model). -/
inductive SpiError where
  | invalidResponse
  | needsReset
  | unresponsive
  | oversizedPayload
  | unexpectedReset (code : Byte)
  | internalError
deriving DecidableEq, Repr

inductive SuccessResponse where
  | ezspFrame (b : List Byte)
  | bootloaderFrame (b : List Byte)
  | spiStatus (ready : Bool)
  | spiProtocolVersion (v : Byte)
deriving DecidableEq, Repr

inductive Command where
  | ezspFrame (b : List Byte)
  | bootloaderFrame (b : List Byte)
  | spiStatus
  | spiProtocolVersion
deriving DecidableEq, Repr

/-- The observable behaviour of a `SpiDevice` during `NCP` operations:
whether the interrupt fires within `RESET_STARTUP_TIME` after a reset pulse,
whether it fires within `RESPONSE_TIMEOUT` after a command is written, and
the parsed-and-converted response returned for a command. -/
structure SpiDeviceModel where
  startupInterrupt : Bool
  commandInterrupt : Command → Bool
  response : Command → Except SpiError SuccessResponse

/-- `NCP::check_state` (ncp.rs lines 109-114): `NeedsReset` while the state
is Unknown. -/
def check_state : NcpState → Except SpiError Unit
  | .unknown => .error .needsReset
  | _ => .ok ()

/-- `NCP::send_command` (ncp.rs lines 157-176): check the state first; then
write the command, poll the interrupt (timeout makes the state Unknown and
returns Unresponsive), and read the response. -/
def send_command (dev : SpiDeviceModel) (st : NcpState) (command : Command) :
    Except SpiError SuccessResponse × NcpState :=
  match check_state st with
  | .error e => (.error e, st)
  | .ok _ =>
    if dev.commandInterrupt command then (dev.response command, st)
    else (.error .unresponsive, .unknown)

/-- `NCP::reset` (ncp.rs lines 191-233): pulse the reset line, set the state
to Unknown, wait for the startup interrupt, then run the three-step handshake
through `send_command`, and on success set the state to Normal or
Bootloader. -/
def NCP.reset (dev : SpiDeviceModel) (bootloader : Bool) :
    Except SpiError Unit × NcpState :=
  let st : NcpState := .unknown
  if ¬ dev.startupInterrupt then (.error .unresponsive, st)
  else
    match send_command dev st .spiProtocolVersion with
    | (.error (.unexpectedReset 2), st1) =>
      match send_command dev st1 .spiProtocolVersion with
      | (.error e, st2) => (.error e, st2)
      | (.ok (.spiProtocolVersion 2), st2) =>
        match send_command dev st2 .spiStatus with
        | (.error e, st3) => (.error e, st3)
        | (.ok (.spiStatus true), _) =>
          (.ok (), if bootloader then .bootloader else .normal)
        | (.ok _, st3) => (.error .invalidResponse, st3)
      | (.ok _, st2) => (.error .invalidResponse, st2)
    | (_, st1) => (.error .invalidResponse, st1)

/-! ### src/spi/ncp.rs: `read_response` buffer indexing

`BytesMut` is modelled by its initialised contents (the region of length
`len()`); indexing or advancing past `len()` panics. -/

/-- The `read_buf` created by `NCP::new` (ncp.rs lines 64-71):
`BytesMut::with_capacity(1024)` has capacity 1024 but length 0. -/
def NCP.new_read_buf : List Byte := []

/-- `buf[i] = b` through `IndexMut`: panics (`none`) when `i` is not below
the initialised length. -/
def bytesmut_write_at (buf : List Byte) (i : Nat) (b : Byte) : Option (List Byte) :=
  if i < buf.length then some (buf.set i b) else none

/-- `Buf::advance(cnt)` on `BytesMut`: panics (`none`) when `cnt` exceeds the
length. -/
def bytesmut_advance (buf : List Byte) (cnt : Nat) : Option (List Byte) :=
  if cnt ≤ buf.length then some (buf.drop cnt) else none

/-- The first statement of `NCP::read_response` (ncp.rs line 76):
`self.read_buf[0] = self.device.drop_until().await?`. -/
def read_response_first_write (read_buf : List Byte) (first_byte : Byte) :
    Option (List Byte) :=
  bytesmut_write_at read_buf 0 first_byte

/-! ## Claim theorems -/

theorem dropScanLoop_nil (fuel : Nat) (d : Bool) : dropScanLoop fuel [] d = none := by
  induction fuel with
  | zero => rfl
  | succ n ih => simpa [dropScanLoop, firstFraming] using ih

/-- C1: the recovery scan of `AshCodec::decode` does not terminate on the
buffer `FF FF FF 1A`: after the CANCEL byte is dropped the buffer is empty,
and the `loop` in `drop_buffer_before_substitute` has no exit when no
SUBSTITUTE, CANCEL or FLAG byte remains, so `decode` never returns — for no
amount of fuel does the model produce a value, contradicting the expectation
that decoding `FF FF FF 1A` returns `None` with the buffer drained. -/
theorem c1_decode_recovery_scan_never_terminates (fuel : Nat) :
    AshCodec.decode fuel [0xFF, 0xFF, 0xFF, 0x1A] false = none := by
  have hf : firstFraming [0xFF, 0xFF, 0xFF, 0x1A] = some (0x1A, []) := by decide
  cases fuel with
  | zero => rfl
  | succ n =>
    simp [AshCodec.decode, drop_buffer_framing_errors, dropScanLoop, hf,
      dropScanLoop_nil, FLAG_BYTE, SUB_BYTE]

/-- C2: `AshCodec::decode` (via `Frame::parse`) returns the unstuffed DATA
body verbatim — decoding `25 42 21 A8 56 A6 09 7E` with a fresh codec yields
the raw bytes `42 21 A8 56`, not the de-randomised `00 00 00 02` — whereas
the `DataFrame::parse` rewrite in frame/data.rs does XOR the body with the
LFSR sequence and yields `00 00 00 02`. -/
theorem c2_codec_decode_skips_derandomisation :
    AshCodec.decode 1 [0x25, 0x42, 0x21, 0xA8, 0x56, 0xA6, 0x09, 0x7E] false =
      some (.frame (.data ⟨2⟩ false ⟨5⟩ [0x42, 0x21, 0xA8, 0x56]), [], false) ∧
    DataFrame.parse [0x25, 0x42, 0x21, 0xA8, 0x56, 0xA6, 0x09, 0x7E] =
      .ok [] ⟨⟨2⟩, false, ⟨5⟩, [0x00, 0x00, 0x00, 0x02]⟩ := by decide

/-- C4: `Frame::serialize` emits a reserved checksum byte XORed with 0x20 but
without the preceding ESCAPE byte.  The ACK frame with control byte 0x8B has
CRC 0xC113, whose low byte 0x13 is reserved: the serializer outputs
`8B C1 33 7E` instead of the escape-stuffed `8B C1 7D 33 7E`, and the
repository's own `Frame::parse` rejects the serialized bytes with
`InvalidChecksum` while accepting the escape-stuffed form. -/
theorem c4_serialize_mangles_reserved_crc_byte :
    Frame.serialize (.ack false true ⟨3⟩) = [0x8B, 0xC1, 0x33, 0x7E] ∧
    Frame.parse (Frame.serialize (.ack false true ⟨3⟩)) =
      .failure [] (.invalidChecksum (.ack false true ⟨3⟩)) ∧
    Frame.parse [0x8B, 0xC1, 0x7D, 0x33, 0x7E] = .ok [] (.ack false true ⟨3⟩) := by
  decide

/-- C5: in the Connected state an in-sequence DATA frame (frm_num = inflight
+ 1 mod 8, window open) increments the in-flight number and enqueues the
body, but the reject flag is left set: `process_data_frame` never calls
`clear_reject_condition` (which would clear it, as shown by the second
conjunct, but has no caller). -/
theorem c5_in_sequence_data_does_not_clear_reject :
    ConnectedState.process_data_frame ⟨true, ⟨0⟩, ⟨0⟩⟩ ⟨1⟩ false ⟨0⟩ [1, 2, 3] =
      (⟨true, ⟨1⟩, ⟨0⟩⟩, [], [[1, 2, 3]]) ∧
    ConnectedState.clear_reject_condition ⟨true, ⟨0⟩, ⟨0⟩⟩ = ⟨false, ⟨0⟩, ⟨0⟩⟩ := by
  decide

/-- C9: `NCP::new` creates `read_buf` with `BytesMut::with_capacity(1024)`,
whose initialised length is 0, so the first statement of
`NCP::read_response` — `self.read_buf[0] = ...` — indexes out of bounds and
panics on every send and reset-handshake transaction. -/
theorem c9_read_response_first_write_panics (first_byte : Byte) :
    NCP.new_read_buf.length = 0 ∧
    read_response_first_write NCP.new_read_buf first_byte = none := ⟨rfl, rfl⟩

theorem randomize_data_from_involutive (reg : Byte) (buf : List Byte) :
    randomize_data_from reg (randomize_data_from reg buf) = buf := by
  induction buf generalizing reg with
  | nil => rfl
  | cons b rest ih =>
    simp [randomize_data_from, ih, Nat.xor_assoc]

/-- C10: the DATA payload randomisation is self-inverse — applying
`randomize_data` twice is the identity on every buffer — the LFSR stream
`rand_seq` starts fresh at seed 0x42 (first values 42 21 A8 54), and XORing
the stream into `00 00 00 02` gives `42 21 A8 56`. -/
theorem c10_randomize_data_self_inverse :
    (∀ buf : List Byte, randomize_data (randomize_data buf) = buf) ∧
    randomize_data [0x00, 0x00, 0x00, 0x02] = [0x42, 0x21, 0xA8, 0x56] ∧
    (List.range 4).map rand_seq = [0x42, 0x21, 0xA8, 0x54] :=
  ⟨fun buf => randomize_data_from_involutive 0x42 buf, by decide, by decide⟩

/-- C6 counterexample: `Frame::parse` accepts a DATA frame with an empty
body: `25 95 37 7E` (control byte 0x25 followed directly by a valid CRC over
it) parses successfully to a DATA frame whose body length 0 lies outside
[3,128], so decoding does not reject every out-of-range DATA body. -/
theorem c6_counterexample_empty_data_body_accepted :
    Frame.parse [0x25, 0x95, 0x37, 0x7E] = .ok [] (.data ⟨2⟩ false ⟨5⟩ []) ∧
    ([] : List Byte).length < 3 := by decide

theorem frame_data_and_flag_clean (l : List Byte)
    (h : ∀ b ∈ l, b ≠ FLAG_BYTE ∧ b ≠ ESCAPE_BYTE) :
    frame_data_and_flag (l ++ [FLAG_BYTE]) = .ok [] l := by
  induction l with
  | nil => rfl
  | cons b rest ih =>
    have hb := h b (List.mem_cons_self b rest)
    have hrest : ∀ x ∈ rest, x ≠ FLAG_BYTE ∧ x ≠ ESCAPE_BYTE := fun x hx =>
      h x (List.mem_cons_of_mem b hx)
    rw [List.cons_append, frame_data_and_flag.eq_def]
    simp [hb.1, hb.2, ih hrest]

/-- C6 amended: decoding rejects every RSTACK or ERROR frame whose unstuffed
payload-plus-CRC region is not exactly 4 bytes (payload before the CRC not
exactly 2 bytes), surfacing `InvalidDataField` with the partially parsed
frame; for DATA frames no [3,128] body-length check is performed — only the
two CRC bytes are required — so a DATA frame with an empty body is
accepted. -/
theorem c6_amended_rstack_error_length_checked_data_unchecked (payload : List Byte)
    (hclean : ∀ b ∈ payload, b ≠ FLAG_BYTE ∧ b ≠ ESCAPE_BYTE)
    (hlen : payload.length ≠ 4) :
    Frame.parse (0xC1 :: (payload ++ [FLAG_BYTE])) =
      .failure [] (.invalidDataField (.rstAck 0 0)) ∧
    Frame.parse (0xC2 :: (payload ++ [FLAG_BYTE])) =
      .failure [] (.invalidDataField (.error 0 0)) ∧
    Frame.parse [0x25, 0x95, 0x37, 0x7E] = .ok [] (.data ⟨2⟩ false ⟨5⟩ []) := by
  refine ⟨?_, ?_, by decide⟩ <;>
    simp [Frame.parse, parseControlByte, frame_data_and_flag_clean payload hclean,
      Frame.data_len, hlen]

theorem c6_amended_rstack_error_length_checked_data_unchecked_witness :
    ((∀ b ∈ ([0x01, 0x02, 0x03] : List Byte), b ≠ FLAG_BYTE ∧ b ≠ ESCAPE_BYTE) ∧
      ([0x01, 0x02, 0x03] : List Byte).length ≠ 4) ∧
    (Frame.parse (0xC1 :: (([0x01, 0x02, 0x03] : List Byte) ++ [FLAG_BYTE])) =
        .failure [] (.invalidDataField (.rstAck 0 0)) ∧
      Frame.parse (0xC2 :: (([0x01, 0x02, 0x03] : List Byte) ++ [FLAG_BYTE])) =
        .failure [] (.invalidDataField (.error 0 0)) ∧
      Frame.parse [0x25, 0x95, 0x37, 0x7E] = .ok [] (.data ⟨2⟩ false ⟨5⟩ [])) :=
  ⟨⟨by decide, by decide⟩,
    c6_amended_rstack_error_length_checked_data_unchecked [0x01, 0x02, 0x03]
      (by decide) (by decide)⟩

/-- C3: `NCP::reset` can never succeed.  It sets the state to Unknown before
the handshake, and `send_command` starts with `check_state`, which returns
`NeedsReset` while the state is Unknown — so the first handshake step never
observes `UnexpectedReset(0x02)` and `reset` returns `InvalidResponse` for
every device whose startup interrupt fires (and `Unresponsive` otherwise),
instead of succeeding on a device that follows the handshake.  The final
conjunct is the claim's true part: while Unknown, every request other than
Reset returns `NeedsReset`. -/
theorem c3_reset_always_invalid_response (dev : SpiDeviceModel) (bootloader : Bool)
    (command : Command) (h : dev.startupInterrupt = true) :
    (NCP.reset dev bootloader).1 = .error .invalidResponse ∧
    send_command dev .unknown command = (.error .needsReset, .unknown) := by
  constructor
  · simp [NCP.reset, h, send_command, check_state]
  · rfl

/-- A device that follows the reset handshake: the startup interrupt fires,
command interrupts fire, and the first protocol-version query is answered by
the NCP advertising its reset. -/
def handshakeDevice : SpiDeviceModel where
  startupInterrupt := true
  commandInterrupt := fun _ => true
  response := fun command =>
    match command with
    | .spiProtocolVersion => .error (.unexpectedReset 0x02)
    | .spiStatus => .ok (.spiStatus true)
    | .ezspFrame _ => .ok (.ezspFrame [])
    | .bootloaderFrame _ => .ok (.bootloaderFrame [])

theorem c3_reset_always_invalid_response_witness :
    handshakeDevice.startupInterrupt = true ∧
    ((NCP.reset handshakeDevice false).1 = .error .invalidResponse ∧
      send_command handshakeDevice .unknown .spiStatus =
        (.error .needsReset, .unknown)) :=
  ⟨rfl, c3_reset_always_invalid_response handshakeDevice false .spiStatus rfl⟩

/-- C7: in the Failed state any received non-RST frame is answered with
exactly one `Error(version=2, code=reason)` frame and the state is kept;
receiving RST sends `RstAck(version=2, code)` with the code obtained from
`reset_ncp()`, discards the immediately-following RST frames and decode
errors through the lookahead (equivalently, `dropWhile` of the discard
predicate), and transitions to `Connected{reject=false, inflight=0,
acked=0}`. -/
theorem c7_failed_state_process_spec (reason resetCode : Byte) (f : Frame)
    (rest : List StreamItem) (hnr : f ≠ Frame.rst) :
    FailedState.process reason resetCode (.ok (.ok f) :: rest) =
      .step none [Frame.error ASH_VERSION_2 reason] rest ∧
    FailedState.process reason resetCode (.ok (.ok .rst) :: rest) =
      .step (some (.connected ⟨false, ⟨0⟩, ⟨0⟩⟩))
        [Frame.rstAck ASH_VERSION_2 resetCode] (discard_extra_rst_frames rest) ∧
    discard_extra_rst_frames rest = rest.dropWhile isDiscardableItem := by
  refine ⟨?_, rfl, ?_⟩
  · cases f with
    | rst => exact absurd rfl hnr
    | data _ _ _ _ => rfl
    | ack _ _ _ => rfl
    | nak _ _ _ => rfl
    | rstAck _ _ => rfl
    | error _ _ => rfl
  · induction rest with
    | nil => rfl
    | cons i r ih =>
      by_cases hi : isDiscardableItem i = true
      · simp [discard_extra_rst_frames, List.dropWhile_cons, hi, ih]
      · simp [discard_extra_rst_frames, List.dropWhile_cons, hi]

theorem c7_failed_state_process_spec_witness :
    (Frame.ack false false ⟨0⟩ ≠ Frame.rst) ∧
    (FailedState.process 0x02 0x02 [.ok (.ok (.ack false false ⟨0⟩))] =
        .step none [Frame.error ASH_VERSION_2 0x02] [] ∧
      FailedState.process 0x02 0x02 [.ok (.ok .rst)] =
        .step (some (.connected ⟨false, ⟨0⟩, ⟨0⟩⟩))
          [Frame.rstAck ASH_VERSION_2 0x02] (discard_extra_rst_frames []) ∧
      discard_extra_rst_frames ([] : List StreamItem) =
        ([] : List StreamItem).dropWhile isDiscardableItem) :=
  ⟨by decide,
    c7_failed_state_process_spec 0x02 0x02 (.ack false false ⟨0⟩) [] (by decide)⟩

/-- C8: an out-of-sequence DATA frame, and a codec `InvalidChecksum` or
`InvalidDataField` error carrying a DATA candidate, set the reject condition
and send a single `Nak(n_rdy=false, ack_num=frm_num)` with no payload
enqueued when the reject flag is clear — and emit nothing further while the
reject flag is already set, so at most one NAK is sent per reject episode. -/
theorem c8_out_of_sequence_and_codec_errors_nak_once (s : ConnectedState)
    (frm_num : FrameNumber) (re_tx : Bool) (ack_num : FrameNumber) (body : List Byte)
    (hseq : frm_num ≠ s.inflight_frame_number.add 1) :
    s.process_data_frame frm_num re_tx ack_num body =
      (if s.reject then (s, [], [])
       else ({ s with reject := true }, [Frame.nak false false frm_num], [])) ∧
    s.handle_frame (.error (.invalidChecksum (.data frm_num re_tx ack_num body))) =
      (if s.reject then .ok s [] []
       else .ok { s with reject := true } [Frame.nak false false frm_num] []) ∧
    s.handle_frame (.error (.invalidDataField (.data frm_num re_tx ack_num body))) =
      (if s.reject then .ok s [] []
       else .ok { s with reject := true } [Frame.nak false false frm_num] []) := by
  obtain ⟨r, infl, ack⟩ := s
  cases r <;>
    simp [ConnectedState.process_data_frame, ConnectedState.handle_frame,
      ConnectedState.set_reject_condition_and_send_nak, hseq]

theorem c8_out_of_sequence_and_codec_errors_nak_once_witness :
    ((⟨2⟩ : FrameNumber) ≠
        (ConnectedState.mk false ⟨0⟩ ⟨0⟩).inflight_frame_number.add 1) ∧
    (ConnectedState.process_data_frame ⟨false, ⟨0⟩, ⟨0⟩⟩ ⟨2⟩ false ⟨0⟩ [9] =
        (if (ConnectedState.mk false ⟨0⟩ ⟨0⟩).reject then (⟨false, ⟨0⟩, ⟨0⟩⟩, [], [])
         else (⟨true, ⟨0⟩, ⟨0⟩⟩, [Frame.nak false false ⟨2⟩], [])) ∧
      ConnectedState.handle_frame ⟨false, ⟨0⟩, ⟨0⟩⟩
          (.error (.invalidChecksum (.data ⟨2⟩ false ⟨0⟩ [9]))) =
        (if (ConnectedState.mk false ⟨0⟩ ⟨0⟩).reject then .ok ⟨false, ⟨0⟩, ⟨0⟩⟩ [] []
         else .ok ⟨true, ⟨0⟩, ⟨0⟩⟩ [Frame.nak false false ⟨2⟩] []) ∧
      ConnectedState.handle_frame ⟨false, ⟨0⟩, ⟨0⟩⟩
          (.error (.invalidDataField (.data ⟨2⟩ false ⟨0⟩ [9]))) =
        (if (ConnectedState.mk false ⟨0⟩ ⟨0⟩).reject then .ok ⟨false, ⟨0⟩, ⟨0⟩⟩ [] []
         else .ok ⟨true, ⟨0⟩, ⟨0⟩⟩ [Frame.nak false false ⟨2⟩] [])) :=
  ⟨by decide,
    c8_out_of_sequence_and_codec_errors_nak_once ⟨false, ⟨0⟩, ⟨0⟩⟩ ⟨2⟩ false ⟨0⟩ [9]
      (by decide)⟩

end EzspSpiBridge
